import Mathlib

/-!
Verification of the `localaichat` vLLM chat-session module (`localaichat/vllm.py`)
as a shallow embedding in Lean.

The HTTP transport, the `orjson` parser and the pydantic machinery are external
collaborators; they are represented by explicit arguments (a response value
already decoded from JSON, a `Loads` oracle for `orjson.loads`).  The session
object (`ChatSession` from `models.py`, which is not part of the sources) is
modelled from the spec where noted.  Everything else is translated line by line
from `vllm.py`.
-/

set_option maxRecDepth 10000

/-- A JSON value as produced by `r.json()` / `orjson.loads`.  Integral
numbers (everything the module computes with: token counts, the forced
temperature 0) are carried as integers; the one non-integral literal in the
module (the default temperature 0.3) is carried opaquely by its literal text,
since the module never computes with it. -/
inductive JsonVal where
  | str (s : String)
  | num (n : ℤ)
  | flt (lit : String)
  | bool (b : Bool)
  | null
  | arr (xs : List JsonVal)
  | obj (kvs : List (String × JsonVal))
deriving Repr

/-- Python `d[k] = v` on a dict represented as an ordered association list:
replaces the value of an existing key in place, otherwise appends the key. -/
def dictSet (d : List (String × JsonVal)) (k : String) (v : JsonVal) :
    List (String × JsonVal) :=
  match d with
  | [] => [(k, v)]
  | (k0, v0) :: rest =>
      if k0 = k then (k, v) :: rest else (k0, v0) :: dictSet rest k v

/-- Python `d.get(k)` / `k in d` lookup on an ordered association list. -/
def dictGet (d : List (String × JsonVal)) (k : String) : Option JsonVal :=
  match d with
  | [] => none
  | (k0, v0) :: rest => if k0 = k then some v0 else dictGet rest k

/-- Python truthiness of a JSON-decoded value (`if delta:`). -/
def pyTruthy (v : JsonVal) : Bool :=
  match v with
  | .str s => s ≠ ""
  | .num n => n ≠ 0
  -- float truthiness shown for the literal forms that occur; no claim
  -- exercises it
  | .flt lit => lit ≠ "0.0"
  | .bool b => b
  | .null => false
  | .arr xs => !xs.isEmpty
  | .obj kvs => !kvs.isEmpty

/-- `ChatMessage` (pydantic model from `models.py`; its fields are those the
vLLM module constructs: role, content, optional name, optional finish_reason
and the three optional token counts). -/
structure ChatMessage where
  role : String
  content : String
  name : Option String := none
  finish_reason : Option JsonVal := none
  prompt_length : Option ℤ := none
  completion_length : Option ℤ := none
  total_length : Option ℤ := none
deriving Repr

/-- The mutable state of a `vLLMSession` that the module reads or writes:
message history, the three running usage totals, the default system prompt,
the default generation parameters, the model id and the session-wide
persistence policy consulted by `add_messages`. -/
structure SessionState where
  messages : List ChatMessage
  total_prompt_length : ℤ
  total_completion_length : ℤ
  total_length : ℤ
  system : String
  params : List (String × JsonVal)
  model : String
  save_messages : Bool
deriving Repr

/-- Modelled from the spec: the session collaborator's
`add_messages(user, assistant, persist_flag)` (the `ChatSession` base class is
not under `src/`): appends the user and assistant messages, in that order, to
the session history when persistence is enabled; the flag defaults to the
session-wide policy when unset. -/
def add_messages (s : SessionState) (user assistant : ChatMessage)
    (save : Option Bool) : SessionState :=
  if save.getD s.save_messages then
    { s with messages := s.messages ++ [user, assistant] }
  else s

/-- Modelled from the spec: `format_input_messages(system_message, user_message)`
(from the `ChatSession` base class, not under `src/`) returns the ordered
message list sent to the server: the system message, the stored history, then
the new user message (each restricted to the recognized input fields, which is
a no-op at this level of modelling). -/
def format_input_messages (s : SessionState) (system_message user_message : ChatMessage) :
    List ChatMessage :=
  system_message :: (s.messages ++ [user_message])

/-- A prompt argument: either a plain string or an instance of a pydantic
input-schema type (carrying the type's name and the instance's
`model_dump_json()` serialization). -/
inductive PromptVal where
  | text (s : String)
  | typed (typeName : String) (dumpJson : String)
deriving Repr

/-- A schema type reference (`input_schema` / `output_schema`): the class name
and its `model_json_schema()` document. -/
structure SchemaType where
  name : String
  jsonSchema : JsonVal
deriving Repr

/-- `isinstance(prompt, input_schema)`. -/
def promptIsInstance (p : PromptVal) (sch : SchemaType) : Bool :=
  match p with
  | .text _ => false
  | .typed tn _ => tn = sch.name

/-- Python `a or b` on an optional string argument (`system or self.system`):
`None` and the empty string both fall back to the default. -/
def pyOrStr (a : Option String) (deflt : String) : String :=
  match a with
  | none => deflt
  | some s => if s = "" then deflt else s

/-- Python `params or self.params`: `None` and the empty dict fall back to the
session default.  The second component records whether the result is the
session's own dict object (the aliasing through which in-place key insertion
mutates the session defaults). -/
def pyOrParams (a : Option (List (String × JsonVal))) (s : SessionState) :
    List (String × JsonVal) × Bool :=
  match a with
  | none => (s.params, true)
  | some ps => if ps.isEmpty then (s.params, true) else (ps, false)

/-- Errors raised by the module (Python exception kinds relevant here). -/
inductive GenError where
  /-- `AssertionError` from the `isinstance` assert in `prepare_request`. -/
  | typeMismatch (typeName : String)
  /-- `KeyError` from a missing dict key, before the executor's catch wraps it. -/
  | keyErr
  /-- `IndexError` from `choices[0]` on an empty list. -/
  | indexErr
  /-- `TypeError` / pydantic validation failure on an unexpectedly-shaped value. -/
  | typeErr
  /-- `orjson.JSONDecodeError` from `orjson.loads` in the output-schema path. -/
  | jsonDecode
  /-- `KeyError(f"No AI generation: r")`: the executor's wrapper around a
  missing expected key, carrying the raw response body. -/
  | noAiGeneration (body : JsonVal)
  /-- `StopIteration` from `next()` when no tool matches the selected name. -/
  | stopIteration
  /-- A case outside the modelled domain (noted at each use site). -/
  | unmodeled
deriving Repr

/-- The outcome of `prepare_request`: the JSON-serializable payload pieces
(`model`, `messages`, `stream`, and the spread generation parameters) plus the
constructed user message. -/
structure RequestData where
  model : String
  messages : List ChatMessage
  stream : Bool
  gen_params : List (String × JsonVal)
deriving Repr

/-- The user-message construction of `prepare_request` (lines 38-47): with an
input schema the prompt must be an instance of it (`AssertionError`
otherwise) and is serialized with the type name recorded; without one the
prompt text is used verbatim. -/
def mkUserMessage (prompt : PromptVal) (input_schema : Option SchemaType) :
    Except GenError ChatMessage :=
  match input_schema with
  | some sch =>
      match prompt with
      | .typed tn dump =>
          if tn = sch.name then
            .ok { role := "user", content := dump, name := some sch.name }
          else .error (.typeMismatch sch.name)
      | .text _ => .error (.typeMismatch sch.name)
  | none =>
      match prompt with
      | .text t => .ok { role := "user", content := t }
      -- a typed prompt without an input schema would fail pydantic string
      -- validation of the content field; not exercised by any claim
      | .typed _ _ => .error .unmodeled

/-- `vLLMSession.prepare_request` (localaichat/vllm.py lines 22-68).  Returns
the request data, the user message, and the session state after the call: when
no params override is in effect, `gen_params` is the session's own dict, so
the `guided_json` insertions mutate the session state (the aliasing the spec
flags as a hazard).  The assert precedes the insertions, so a type-mismatch
failure leaves the state untouched. -/
def prepare_request (s : SessionState) (prompt : PromptVal)
    (system : Option String) (params : Option (List (String × JsonVal)))
    (stream : Bool) (input_schema output_schema : Option SchemaType) :
    Except GenError (RequestData × ChatMessage × SessionState) :=
  match mkUserMessage prompt input_schema with
  | .error e => .error e
  | .ok user_message =>
      let (gp0, aliased) := pyOrParams params s
      let gp1 := match input_schema with
        | some sch => dictSet gp0 "guided_json" sch.jsonSchema
        | none => gp0
      let gp2 := match output_schema with
        | some sch => dictSet gp1 "guided_json" sch.jsonSchema
        | none => gp1
      let s1 := if aliased then { s with params := gp2 } else s
      let data : RequestData :=
        { model := s.model
          messages := format_input_messages s
            { role := "system", content := pyOrStr system s.system } user_message
          stream := stream
          gen_params := gp2 }
      .ok (data, user_message, s1)


/-- The `orjson.loads` collaborator: a parsing oracle from strings to JSON
values (failure is a `JSONDecodeError`). -/
def Loads : Type := String → Except Unit JsonVal

/-- Python `j[k]` on a decoded JSON value: `KeyError` when the key is missing,
`TypeError` when the value is not a dict. -/
def jGet (j : JsonVal) (k : String) : Except GenError JsonVal :=
  match j with
  | .obj kvs =>
      match dictGet kvs k with
      | some v => .ok v
      | none => .error .keyErr
  | _ => .error .typeErr

/-- Python `j[i]` on a decoded JSON value: `IndexError` when out of range,
`TypeError` when the value is not a list. -/
def jIdx (j : JsonVal) (i : ℕ) : Except GenError JsonVal :=
  match j with
  | .arr xs =>
      match xs.get? i with
      | some v => .ok v
      | none => .error .indexErr
  | _ => .error .typeErr

/-- Expects a JSON string (message content must be textual: pydantic validates
it, `orjson.loads` requires it). -/
def jStr (j : JsonVal) : Except GenError String :=
  match j with
  | .str s => .ok s
  | _ => .error .typeErr

/-- Expects a JSON number (the usage counters added to the running totals). -/
def jNum (j : JsonVal) : Except GenError ℤ :=
  match j with
  | .num n => .ok n
  | _ => .error .typeErr

/-- The value `gen` returns: the content string when no output schema was
requested, the `orjson.loads` of the content otherwise. -/
inductive GenOutput where
  | text (s : String)
  | structured (j : JsonVal)
deriving Repr

/-- `r["choices"][0]` (the accesses shared by every extraction). -/
def choice0 (resp : JsonVal) : Except GenError JsonVal :=
  match jGet resp "choices" with
  | .error e => .error e
  | .ok choices => jIdx choices 0

/-- `r["choices"][0]["message"][k]`. -/
def messageField (resp : JsonVal) (k : String) : Except GenError String :=
  match choice0 resp with
  | .error e => .error e
  | .ok c0 =>
      match jGet c0 "message" with
      | .error e => .error e
      | .ok msg =>
          match jGet msg k with
          | .error e => .error e
          | .ok v => jStr v

/-- `r["choices"][0]["message"]["content"]` (expected textual). -/
def contentExtract (resp : JsonVal) : Except GenError String :=
  messageField resp "content"

/-- The accesses made while constructing the assistant message, in source
order: `content`, then `["role"]`, then `choices[0]["finish_reason"]`. -/
def headExtract (resp : JsonVal) : Except GenError (String × String × JsonVal) :=
  match messageField resp "content" with
  | .error e => .error e
  | .ok content =>
      match messageField resp "role" with
      | .error e => .error e
      | .ok role =>
          match choice0 resp with
          | .error e => .error e
          | .ok c0 =>
              match jGet c0 "finish_reason" with
              | .error e => .error e
              | .ok finish => .ok (content, role, finish)

/-- One `r["usage"][k]` access. -/
def usageKey (resp : JsonVal) (k : String) : Except GenError ℤ :=
  match jGet resp "usage" with
  | .error e => .error e
  | .ok usage =>
      match jGet usage k with
      | .error e => .error e
      | .ok v => jNum v

/-- `r["usage"]["prompt_tokens"]`, `["completion_tokens"]`, `["total_tokens"]`,
in source order. -/
def usageTriple (resp : JsonVal) : Except GenError (ℤ × ℤ × ℤ) :=
  match usageKey resp "prompt_tokens" with
  | .error e => .error e
  | .ok pt =>
      match usageKey resp "completion_tokens" with
      | .error e => .error e
      | .ok ct =>
          match usageKey resp "total_tokens" with
          | .error e => .error e
          | .ok tt => .ok (pt, ct, tt)

/-- The `try:` block of `vLLMSession.gen` (lines 92-110), as a state
transformer that reports the session state reached even when an exception
escapes (Python mutations persist across a raise).  In the no-output-schema
branch every key access happens while constructing the assistant message,
before `add_messages` and before the totals update, so a failure leaves the
state unchanged; in the output-schema branch each `+=` performs its own key
lookup and then assigns, so a missing later usage key leaves the earlier
totals already updated. -/
def genTryBody (loads : Loads) (s1 : SessionState) (user_message : ChatMessage)
    (resp : JsonVal) (save_messages : Option Bool)
    (output_schema : Option SchemaType) :
    (Except GenError GenOutput) × SessionState :=
  match output_schema with
  | none =>
      match headExtract resp with
      | .error e => (.error e, s1)
      | .ok (content, role, finish) =>
          match usageTriple resp with
          | .error e => (.error e, s1)
          | .ok (pt, ct, tt) =>
              let assistant_message : ChatMessage :=
                { role := role, content := content, finish_reason := some finish,
                  prompt_length := some pt, completion_length := some ct,
                  total_length := some tt }
              let s2 := add_messages s1 user_message assistant_message save_messages
              -- the three `+=` lines re-read the same usage keys, which the
              -- message construction above has already shown to be present
              let s3 := { s2 with
                total_prompt_length := s2.total_prompt_length + pt
                total_completion_length := s2.total_completion_length + ct
                total_length := s2.total_length + tt }
              (.ok (.text content), s3)
  | some _ =>
      match contentExtract resp with
      | .error e => (.error e, s1)
      | .ok contentS =>
          match loads contentS with
          | .error _ => (.error .jsonDecode, s1)
          | .ok parsed =>
              -- `self.total_* += r["usage"][...]`: each lookup precedes its
              -- own assignment, so a missing later key leaves the earlier
              -- totals already updated
              match usageKey resp "prompt_tokens" with
              | .error e => (.error e, s1)
              | .ok pt =>
                  let s2 := { s1 with
                    total_prompt_length := s1.total_prompt_length + pt }
                  match usageKey resp "completion_tokens" with
                  | .error e => (.error e, s2)
                  | .ok ct =>
                      let s3 := { s2 with
                        total_completion_length := s2.total_completion_length + ct }
                      match usageKey resp "total_tokens" with
                      | .error e => (.error e, s3)
                      | .ok tt =>
                          let s4 := { s3 with
                            total_length := s3.total_length + tt }
                          (.ok (.structured parsed), s4)

/-- The `except KeyError: raise KeyError(f"No AI generation: r")` clause
(lines 111-112): remaps an escaped KeyError to the wrapping error carrying the
raw response body; the state reached inside the try block stands. -/
def catchKeyError (resp : JsonVal)
    (r : (Except GenError GenOutput) × SessionState) :
    (Except GenError GenOutput) × SessionState :=
  match r with
  | (.error .keyErr, s2) => (.error (.noAiGeneration resp), s2)
  | other => other

/-- `vLLMSession.gen` (lines 70-114).  The HTTP POST is the external
transport; `resp` stands for the decoded body `r.json()`.  The
`except KeyError` clause re-raises a missing-key failure as
`KeyError(f"No AI generation: r")`, carrying the raw body; mutations made
before the failing access persist. -/
def gen (s : SessionState) (loads : Loads) (prompt : PromptVal) (resp : JsonVal)
    (system : Option String) (save_messages : Option Bool)
    (params : Option (List (String × JsonVal)))
    (input_schema output_schema : Option SchemaType) :
    (Except GenError GenOutput) × SessionState :=
  match prepare_request s prompt system params false input_schema output_schema with
  | .error e => (.error e, s)
  | .ok (_, user_message, s1) =>
      catchKeyError resp
        (genTryBody loads s1 user_message resp save_messages output_schema)

/-- The `try:` block of `vLLMSession.gen_async` (lines 254-272), duplicated in
the source line for line from the synchronous body. -/
def genTryBodyAsync (loads : Loads) (s1 : SessionState) (user_message : ChatMessage)
    (resp : JsonVal) (save_messages : Option Bool)
    (output_schema : Option SchemaType) :
    (Except GenError GenOutput) × SessionState :=
  match output_schema with
  | none =>
      match headExtract resp with
      | .error e => (.error e, s1)
      | .ok (content, role, finish) =>
          match usageTriple resp with
          | .error e => (.error e, s1)
          | .ok (pt, ct, tt) =>
              let assistant_message : ChatMessage :=
                { role := role, content := content, finish_reason := some finish,
                  prompt_length := some pt, completion_length := some ct,
                  total_length := some tt }
              let s2 := add_messages s1 user_message assistant_message save_messages
              -- the three `+=` lines re-read the same usage keys, which the
              -- message construction above has already shown to be present
              let s3 := { s2 with
                total_prompt_length := s2.total_prompt_length + pt
                total_completion_length := s2.total_completion_length + ct
                total_length := s2.total_length + tt }
              (.ok (.text content), s3)
  | some _ =>
      match contentExtract resp with
      | .error e => (.error e, s1)
      | .ok contentS =>
          match loads contentS with
          | .error _ => (.error .jsonDecode, s1)
          | .ok parsed =>
              -- `self.total_* += r["usage"][...]`: each lookup precedes its
              -- own assignment, so a missing later key leaves the earlier
              -- totals already updated
              match usageKey resp "prompt_tokens" with
              | .error e => (.error e, s1)
              | .ok pt =>
                  let s2 := { s1 with
                    total_prompt_length := s1.total_prompt_length + pt }
                  match usageKey resp "completion_tokens" with
                  | .error e => (.error e, s2)
                  | .ok ct =>
                      let s3 := { s2 with
                        total_completion_length := s2.total_completion_length + ct }
                      match usageKey resp "total_tokens" with
                      | .error e => (.error e, s3)
                      | .ok tt =>
                          let s4 := { s3 with
                            total_length := s3.total_length + tt }
                          (.ok (.structured parsed), s4)

/-- `vLLMSession.gen_async` (lines 232-276): identical to `gen` except that
the POST is awaited (a transport-level difference outside the model). -/
def gen_async (s : SessionState) (loads : Loads) (prompt : PromptVal) (resp : JsonVal)
    (system : Option String) (save_messages : Option Bool)
    (params : Option (List (String × JsonVal)))
    (input_schema output_schema : Option SchemaType) :
    (Except GenError GenOutput) × SessionState :=
  match prepare_request s prompt system params false input_schema output_schema with
  | .error e => (.error e, s)
  | .ok (_, user_message, s1) =>
      catchKeyError resp
        (genTryBodyAsync loads s1 user_message resp save_messages output_schema)

/-- One event yielded by the streaming executor. -/
structure StreamEvent where
  delta : String
  response : String
deriving Repr, DecidableEq

/-- The line loop of `vLLMSession.stream` (lines 137-146) over the lines the
transport delivers (`r.iter_lines()`): skips empty lines, strips the
6-character SSE prefix, skips the `"[DONE]"` sentinel line (without breaking
out of the loop), parses every other stripped line as JSON, reads
`choices[0].delta.get("content")` and, when that value is truthy, appends it
to the accumulator and yields an event.  Returns the final accumulator, the
yielded events, and the exception that escaped the loop, if any (events
yielded before an exception were already delivered to the caller). -/
def stream_loop (loads : Loads) (content : List String) (lines : List String) :
    List String × List StreamEvent × Option GenError :=
  match lines with
  | [] => (content, [], none)
  | line :: rest =>
      if line.length > 0 then
        let chunk := line.drop 6
        if chunk ≠ "[DONE]" then
          match loads chunk with
          | .error _ => (content, [], some .jsonDecode)
          | .ok chunk_dict =>
              match (match choice0 chunk_dict with
                     | .error e => .error e
                     | .ok c0 => jGet c0 "delta" : Except GenError JsonVal) with
              | .error e => (content, [], some e)
              | .ok deltaDict =>
                  match deltaDict with
                  | .obj kvs =>
                      match dictGet kvs "content" with
                      | some dv =>
                          if pyTruthy dv then
                            match dv with
                            | .str d =>
                                let content1 := content ++ [d]
                                let r := stream_loop loads content1 rest
                                (r.1, { delta := d, response := String.join content1 } :: r.2.1, r.2.2)
                            -- a truthy non-string delta makes `"".join` raise
                            | _ => (content, [], some .typeErr)
                          else stream_loop loads content rest
                      | none => stream_loop loads content rest
                  -- `.get` on a non-dict value raises
                  | _ => (content, [], some .typeErr)
        else stream_loop loads content rest
      else stream_loop loads content rest

/-- `vLLMSession.stream` (lines 116-156).  `lines` stands for the lines the
open connection delivers.  Result: the yielded events, then either the escaped
exception or the value the generator returns on exhaustion (the synchronous
generator ends with `return assistant_message`), and the resulting session
state.  On an escaped exception, `add_messages` is never reached. -/
def stream (s : SessionState) (loads : Loads) (prompt : PromptVal)
    (lines : List String) (system : Option String) (save_messages : Option Bool)
    (params : Option (List (String × JsonVal)))
    (input_schema output_schema : Option SchemaType) :
    List StreamEvent × (Except GenError (Option ChatMessage)) × SessionState :=
  match prepare_request s prompt system params true input_schema output_schema with
  | .error e => ([], .error e, s)
  | .ok (_, user_message, s1) =>
      match stream_loop loads [] lines with
      | (_, evs, some e) => (evs, .error e, s1)
      | (contentF, evs, none) =>
          let assistant_message : ChatMessage :=
            { role := "assistant", content := String.join contentF }
          let s2 := add_messages s1 user_message assistant_message save_messages
          (evs, .ok (some assistant_message), s2)

/-- The line loop of `vLLMSession.stream_async` (lines 299-308), duplicated in
the source line for line from the synchronous loop (over `r.aiter_lines()`). -/
def stream_loop_async (loads : Loads) (content : List String) (lines : List String) :
    List String × List StreamEvent × Option GenError :=
  match lines with
  | [] => (content, [], none)
  | line :: rest =>
      if line.length > 0 then
        let chunk := line.drop 6
        if chunk ≠ "[DONE]" then
          match loads chunk with
          | .error _ => (content, [], some .jsonDecode)
          | .ok chunk_dict =>
              match (match choice0 chunk_dict with
                     | .error e => .error e
                     | .ok c0 => jGet c0 "delta" : Except GenError JsonVal) with
              | .error e => (content, [], some e)
              | .ok deltaDict =>
                  match deltaDict with
                  | .obj kvs =>
                      match dictGet kvs "content" with
                      | some dv =>
                          if pyTruthy dv then
                            match dv with
                            | .str d =>
                                let content1 := content ++ [d]
                                let r := stream_loop_async loads content1 rest
                                (r.1, { delta := d, response := String.join content1 } :: r.2.1, r.2.2)
                            | _ => (content, [], some .typeErr)
                          else stream_loop_async loads content rest
                      | none => stream_loop_async loads content rest
                  | _ => (content, [], some .typeErr)
        else stream_loop_async loads content rest
      else stream_loop_async loads content rest

/-- `vLLMSession.stream_async` (lines 278-316): same loop and finalization as
`stream`, but the async generator ends after `add_messages` with no `return`
statement (an async generator cannot return a value), so no finalized message
is exposed on exhaustion. -/
def stream_async (s : SessionState) (loads : Loads) (prompt : PromptVal)
    (lines : List String) (system : Option String) (save_messages : Option Bool)
    (params : Option (List (String × JsonVal)))
    (input_schema output_schema : Option SchemaType) :
    List StreamEvent × (Except GenError (Option ChatMessage)) × SessionState :=
  match prepare_request s prompt system params true input_schema output_schema with
  | .error e => ([], .error e, s)
  | .ok (_, user_message, s1) =>
      match stream_loop_async loads [] lines with
      | (_, evs, some e) => (evs, .error e, s1)
      | (contentF, evs, none) =>
          let assistant_message : ChatMessage :=
            { role := "assistant", content := String.join contentF }
          let s2 := add_messages s1 user_message assistant_message save_messages
          (evs, .ok none, s2)

/-- An abstract SSE frame, for quantifying over streamed exchanges: an empty
keep-alive line, the `[DONE]` sentinel, or a data chunk whose `delta` dict
carries an optional `content` string. -/
inductive Frame where
  | blank
  | done
  | delta (c : Option String)
deriving Repr

/-- The `delta` dict of a `Frame.delta` chunk: with or without a `content`
entry. -/
def deltaObjOf (c : Option String) : JsonVal :=
  match c with
  | none => .obj []
  | some t => .obj [("content", .str t)]

/-- The JSON object carried by a `Frame.delta` chunk. -/
def deltaJson (c : Option String) : JsonVal :=
  .obj [("choices", .arr [.obj [("delta", deltaObjOf c)]])]

/-- The text a frame contributes to the accumulation: its delta content when
present and non-empty. -/
def frameDelta (f : Frame) : Option String :=
  match f with
  | .delta (some t) => if t = "" then none else some t
  | _ => none

/-- `line` is the wire form of frame `f` under the parsing oracle `loads`:
empty for a keep-alive, carrying the sentinel after the 6-character prefix,
or carrying a chunk that `loads` decodes to the frame's JSON object. -/
def decodesTo (loads : Loads) (line : String) (f : Frame) : Prop :=
  match f with
  | .blank => line.length = 0
  | .done => 0 < line.length ∧ line.drop 6 = "[DONE]"
  | .delta c => 0 < line.length ∧ line.drop 6 ≠ "[DONE]" ∧
      loads (line.drop 6) = .ok (deltaJson c)

/-- The event sequence determined by a list of delta texts: each event's
`delta` is that text and its `response` is the concatenation of all texts so
far (after the initial accumulation `acc`). -/
def buildEvents (acc : String) (ds : List String) : List StreamEvent :=
  match ds with
  | [] => []
  | d :: rest => { delta := d, response := acc ++ d } :: buildEvents (acc ++ d) rest

/-- A tool's result: a bare string (wrapped into a context dict) or an
already-structured context dict. -/
inductive ToolResult where
  | str (s : String)
  | dict (d : List (String × JsonVal))
deriving Repr

/-- A tool passed to the orchestrator: its `__name__` and the callable taking
the prompt. -/
structure Tool where
  name : String
  run : String → ToolResult

/-- The module-level `tool_prompt` template with the tools list substituted
for its placeholder (`tool_prompt.format(tools=tools_list)`). -/
def tool_prompt_format (tools_list : String) : String :=
  "From the list of tools below, reply ONLY with the name of the tool appropriate in response to the user's last message. If no tool is appropriate, reply with \"no-function\".\n\n"
    ++ tools_list

/-- The candidate names for the selection call: the tools' names plus the
`"no-function"` sentinel. -/
def toolNames (tools : List Tool) : List String :=
  tools.map (fun t => t.name) ++ ["no-function"]

/-- The params dict of the selection call: temperature forced to 0 and a
`guided_choice` restricted to the candidate names. -/
def selectionParams (tools : List Tool) : List (String × JsonVal) :=
  [("temperature", .num 0), ("guided_choice", .arr ((toolNames tools).map JsonVal.str))]

/-- The follow-up system prompt of the tool branch. -/
def toolNewSystem (system : Option String) (s1 : SessionState) : String :=
  pyOrStr system s1.system ++ "\n\nYou MUST use information from the context in your response."

/-- The follow-up user prompt of the tool branch, embedding the context. -/
def toolNewPrompt (ctx prompt : String) : String :=
  "Context: " ++ ctx ++ "\n\nUser: " ++ prompt

/-- `vLLMSession.gen_with_tools` (lines 158-230).  `resp1` is the transport
body of the selection call, `resp2` that of the single follow-up generation
(only one of the two branches issues it). -/
def gen_with_tools (s : SessionState) (loads : Loads) (prompt : String)
    (tools : List Tool) (resp1 resp2 : JsonVal) (system : Option String)
    (save_messages : Option Bool) (params : Option (List (String × JsonVal))) :
    (Except GenError (List (String × JsonVal))) × SessionState :=
  match gen s loads (.text prompt) resp1
      (some (tool_prompt_format (String.intercalate "\n" (toolNames tools))))
      (some false) (some (selectionParams tools)) none none with
  | (.error e, s1) => (.error e, s1)
  -- unreachable: the selection call passes no output schema, so `gen`
  -- returns the content string
  | (.ok (.structured _), s1) => (.error .unmodeled, s1)
  | (.ok (.text tool_choice), s1) =>
      if tool_choice = "no-function" then
        match gen s1 loads (.text prompt) resp2 system save_messages params none none with
        | (.error e, s2) => (.error e, s2)
        | (.ok (.structured _), s2) => (.error .unmodeled, s2)
        | (.ok (.text response), s2) =>
            (.ok [("response", .str response), ("tool", .null)], s2)
      else
        match tools.find? (fun t => t.name = tool_choice) with
        | none => (.error .stopIteration, s1)
        | some selected_tool =>
            let context_dict0 : List (String × JsonVal) :=
              match selected_tool.run prompt with
              | .str c => [("context", .str c)]
              | .dict d => d
            let context_dict1 := dictSet context_dict0 "tool" (.str selected_tool.name)
            match dictGet context_dict1 "context" with
            -- `context_dict["context"]` raises KeyError when a dict-valued
            -- tool result lacks the key
            | none => (.error .keyErr, s1)
            | some (.str ctx) =>
                match gen s1 loads (.text (toolNewPrompt ctx prompt)) resp2
                    (some (toolNewSystem system s1)) (some false) params none none with
                | (.error e, s2) => (.error e, s2)
                | (.ok (.structured _), s2) => (.error .unmodeled, s2)
                | (.ok (.text response), s2) =>
                    let context_dict2 := dictSet context_dict1 "response" (.str response)
                    let user_message : ChatMessage := { role := "user", content := prompt }
                    let assistant_message : ChatMessage :=
                      { role := "assistant", content := response }
                    let s3 := add_messages s2 user_message assistant_message save_messages
                    (.ok context_dict2, s3)
            -- the f-string embedding of a non-string context value is not
            -- modelled (no claim exercises it)
            | some _ => (.error .unmodeled, s1)

/-- `vLLMSession.gen_with_tools_async` (lines 320-392): the same protocol over
`gen_async` (and an awaited tool call, a transport-level difference). -/
def gen_with_tools_async (s : SessionState) (loads : Loads) (prompt : String)
    (tools : List Tool) (resp1 resp2 : JsonVal) (system : Option String)
    (save_messages : Option Bool) (params : Option (List (String × JsonVal))) :
    (Except GenError (List (String × JsonVal))) × SessionState :=
  match gen_async s loads (.text prompt) resp1
      (some (tool_prompt_format (String.intercalate "\n" (toolNames tools))))
      (some false) (some (selectionParams tools)) none none with
  | (.error e, s1) => (.error e, s1)
  | (.ok (.structured _), s1) => (.error .unmodeled, s1)
  | (.ok (.text tool_choice), s1) =>
      if tool_choice = "no-function" then
        match gen_async s1 loads (.text prompt) resp2 system save_messages params none none with
        | (.error e, s2) => (.error e, s2)
        | (.ok (.structured _), s2) => (.error .unmodeled, s2)
        | (.ok (.text response), s2) =>
            (.ok [("response", .str response), ("tool", .null)], s2)
      else
        match tools.find? (fun t => t.name = tool_choice) with
        | none => (.error .stopIteration, s1)
        | some selected_tool =>
            let context_dict0 : List (String × JsonVal) :=
              match selected_tool.run prompt with
              | .str c => [("context", .str c)]
              | .dict d => d
            let context_dict1 := dictSet context_dict0 "tool" (.str selected_tool.name)
            match dictGet context_dict1 "context" with
            | none => (.error .keyErr, s1)
            | some (.str ctx) =>
                match gen_async s1 loads (.text (toolNewPrompt ctx prompt)) resp2
                    (some (toolNewSystem system s1)) (some false) params none none with
                | (.error e, s2) => (.error e, s2)
                | (.ok (.structured _), s2) => (.error .unmodeled, s2)
                | (.ok (.text response), s2) =>
                    let context_dict2 := dictSet context_dict1 "response" (.str response)
                    let user_message : ChatMessage := { role := "user", content := prompt }
                    let assistant_message : ChatMessage :=
                      { role := "assistant", content := response }
                    let s3 := add_messages s2 user_message assistant_message save_messages
                    (.ok context_dict2, s3)
            | some _ => (.error .unmodeled, s1)

/-- One session-mutating call, for reasoning about interleaved sequences of
synchronous and streaming generations. -/
inductive CallOp where
  | sync (loads : Loads) (prompt : PromptVal) (resp : JsonVal)
      (system : Option String) (save : Option Bool)
      (params : Option (List (String × JsonVal)))
      (input_schema output_schema : Option SchemaType)
  | streamed (loads : Loads) (prompt : PromptVal) (lines : List String)
      (system : Option String) (save : Option Bool)
      (params : Option (List (String × JsonVal)))
      (input_schema output_schema : Option SchemaType)

/-- The session state after one call (exceptions included: mutations made
before a raise persist). -/
def runOp (s : SessionState) (op : CallOp) : SessionState :=
  match op with
  | .sync loads prompt resp system save params isch osch =>
      (gen s loads prompt resp system save params isch osch).2
  | .streamed loads prompt lines system save params isch osch =>
      (stream s loads prompt lines system save params isch osch).2.2

/-- The session state after a sequence of calls. -/
def runOps (s : SessionState) : List CallOp → SessionState
  | [] => s
  | op :: rest => runOps (runOp s op) rest

/-- Whether a synchronous call succeeds when issued from state `s`
(streaming calls are unconstrained). -/
def opSyncOk (s : SessionState) (op : CallOp) : Bool :=
  match op with
  | .sync loads prompt resp system save params isch osch =>
      (gen s loads prompt resp system save params isch osch).1.isOk
  | .streamed _ _ _ _ _ _ _ _ => true

/-- Every synchronous call of the sequence succeeds from its point in the
run. -/
def allSyncOk (s : SessionState) : List CallOp → Bool
  | [] => true
  | op :: rest => opSyncOk s op && allSyncOk (runOp s op) rest

/-- The usage triple a response reports (0 where absent; a successful
synchronous call always reports all three). -/
def syncUsage (resp : JsonVal) : ℤ × ℤ × ℤ :=
  match usageTriple resp with
  | .ok t => t
  | .error _ => (0, 0, 0)

/-- The usage triple a call contributes to the running totals: the reported
usage of a synchronous call, zero for a streaming call. -/
def opUsage (op : CallOp) : ℤ × ℤ × ℤ :=
  match op with
  | .sync _ _ resp _ _ _ _ _ => syncUsage resp
  | .streamed _ _ _ _ _ _ _ _ => (0, 0, 0)

/-- Componentwise sum of the contributed usage triples. -/
def sumUsage (ops : List CallOp) : ℤ × ℤ × ℤ :=
  ops.foldr
    (fun op acc =>
      ((opUsage op).1 + acc.1, (opUsage op).2.1 + acc.2.1, (opUsage op).2.2 + acc.2.2))
    (0, 0, 0)

/-! ### Support lemmas -/

theorem add_messages_fields (s : SessionState) (u a : ChatMessage) (sv : Option Bool) :
    (add_messages s u a sv).total_prompt_length = s.total_prompt_length ∧
    (add_messages s u a sv).total_completion_length = s.total_completion_length ∧
    (add_messages s u a sv).total_length = s.total_length ∧
    (add_messages s u a sv).params = s.params ∧
    (add_messages s u a sv).system = s.system ∧
    (add_messages s u a sv).model = s.model ∧
    (add_messages s u a sv).save_messages = s.save_messages := by
  unfold add_messages
  split <;> exact ⟨rfl, rfl, rfl, rfl, rfl, rfl, rfl⟩

theorem prepare_request_fields {s : SessionState} {p : PromptVal}
    {sys : Option String} {par : Option (List (String × JsonVal))} {st : Bool}
    {i o : Option SchemaType} {d : RequestData} {um : ChatMessage}
    {s1 : SessionState}
    (h : prepare_request s p sys par st i o = .ok (d, um, s1)) :
    s1.messages = s.messages ∧ s1.total_prompt_length = s.total_prompt_length ∧
    s1.total_completion_length = s.total_completion_length ∧
    s1.total_length = s.total_length ∧ s1.system = s.system ∧
    s1.model = s.model ∧ s1.save_messages = s.save_messages := by
  unfold prepare_request at h
  split at h
  · exact absurd h (by simp)
  · rcases hpp : pyOrParams par s with ⟨gp0, aliased⟩
    rw [hpp] at h
    cases aliased
    · simp only [Bool.false_eq_true, if_false] at h
      cases h
      exact ⟨rfl, rfl, rfl, rfl, rfl, rfl, rfl⟩
    · simp only [if_true] at h
      cases h
      exact ⟨rfl, rfl, rfl, rfl, rfl, rfl, rfl⟩

theorem add_messages_total_prompt (s : SessionState) (u a : ChatMessage) (sv : Option Bool) :
    (add_messages s u a sv).total_prompt_length = s.total_prompt_length := by
  unfold add_messages; split <;> rfl

theorem add_messages_total_completion (s : SessionState) (u a : ChatMessage) (sv : Option Bool) :
    (add_messages s u a sv).total_completion_length = s.total_completion_length := by
  unfold add_messages; split <;> rfl

theorem add_messages_total_length (s : SessionState) (u a : ChatMessage) (sv : Option Bool) :
    (add_messages s u a sv).total_length = s.total_length := by
  unfold add_messages; split <;> rfl

theorem catchKeyError_snd (resp : JsonVal)
    (r : (Except GenError GenOutput) × SessionState) :
    (catchKeyError resp r).2 = r.2 := by
  rcases r with ⟨e | v, s2⟩
  · cases e <;> rfl
  · rfl

theorem catchKeyError_ok {resp : JsonVal}
    {r : (Except GenError GenOutput) × SessionState} {out : GenOutput} :
    (catchKeyError resp r).1 = .ok out ↔ r.1 = .ok out := by
  rcases r with ⟨e | v, s2⟩
  · cases e <;> simp [catchKeyError]
  · simp [catchKeyError]

theorem genTryBody_ok_totals {loads : Loads} {s1 : SessionState} {um : ChatMessage}
    {resp : JsonVal} {sv : Option Bool} {osch : Option SchemaType} {out : GenOutput}
    {s2 : SessionState}
    (h : genTryBody loads s1 um resp sv osch = (.ok out, s2)) :
    s2.total_prompt_length = s1.total_prompt_length + (syncUsage resp).1 ∧
    s2.total_completion_length = s1.total_completion_length + (syncUsage resp).2.1 ∧
    s2.total_length = s1.total_length + (syncUsage resp).2.2 := by
  unfold genTryBody at h
  split at h
  · -- no output schema
    split at h
    · exact absurd h (by simp)
    · split at h
      · exact absurd h (by simp)
      · cases h
        simp_all [syncUsage, add_messages_total_prompt, add_messages_total_completion,
          add_messages_total_length]
  · -- output schema supplied
    split at h
    · exact absurd h (by simp)
    · split at h
      · exact absurd h (by simp)
      · split at h
        · exact absurd h (by simp)
        · split at h
          · exact absurd h (by simp)
          · split at h
            · exact absurd h (by simp)
            · cases h
              simp_all [syncUsage, usageTriple]

theorem genTryBody_none_error_state {loads : Loads} {s1 : SessionState}
    {um : ChatMessage} {resp : JsonVal} {sv : Option Bool} {e : GenError}
    {s2 : SessionState}
    (h : genTryBody loads s1 um resp sv none = (.error e, s2)) : s2 = s1 := by
  unfold genTryBody at h
  repeat' split at h
  all_goals first
    | (cases h; rfl)
    | simp_all

theorem genTryBody_error_messages {loads : Loads} {s1 : SessionState}
    {um : ChatMessage} {resp : JsonVal} {sv : Option Bool} {osch : Option SchemaType}
    {e : GenError} {s2 : SessionState}
    (h : genTryBody loads s1 um resp sv osch = (.error e, s2)) :
    s2.messages = s1.messages := by
  unfold genTryBody at h
  repeat' split at h
  all_goals first
    | (cases h; rfl)
    | simp_all

theorem gen_of_prep_ok {s : SessionState} {loads : Loads} {prompt : PromptVal}
    {resp : JsonVal} {system : Option String} {save : Option Bool}
    {params : Option (List (String × JsonVal))} {i o : Option SchemaType}
    {d : RequestData} {um : ChatMessage} {s1 : SessionState}
    (hprep : prepare_request s prompt system params false i o = .ok (d, um, s1)) :
    gen s loads prompt resp system save params i o
      = catchKeyError resp (genTryBody loads s1 um resp save o) := by
  unfold gen; rw [hprep]

theorem gen_of_prep_err {s : SessionState} {loads : Loads} {prompt : PromptVal}
    {resp : JsonVal} {system : Option String} {save : Option Bool}
    {params : Option (List (String × JsonVal))} {i o : Option SchemaType}
    {e : GenError}
    (hprep : prepare_request s prompt system params false i o = .error e) :
    gen s loads prompt resp system save params i o = (.error e, s) := by
  unfold gen; rw [hprep]

theorem genTryBodyAsync_eq_sync : genTryBodyAsync = genTryBody := rfl

theorem stream_loop_async_eq_sync : stream_loop_async = stream_loop := by
  funext loads content lines
  induction lines generalizing content with
  | nil => rfl
  | cons line rest ih =>
      unfold stream_loop_async stream_loop
      simp only [ih]

theorem gen_ok_totals {s : SessionState} {loads : Loads} {prompt : PromptVal}
    {resp : JsonVal} {system : Option String} {save : Option Bool}
    {params : Option (List (String × JsonVal))} {i o : Option SchemaType}
    {out : GenOutput} {s2 : SessionState}
    (h : gen s loads prompt resp system save params i o = (.ok out, s2)) :
    s2.total_prompt_length = s.total_prompt_length + (syncUsage resp).1 ∧
    s2.total_completion_length = s.total_completion_length + (syncUsage resp).2.1 ∧
    s2.total_length = s.total_length + (syncUsage resp).2.2 := by
  cases hprep : prepare_request s prompt system params false i o with
  | error e =>
      rw [gen_of_prep_err hprep] at h
      exact absurd h (by simp)
  | ok trip =>
      obtain ⟨d, um, s1⟩ := trip
      rw [gen_of_prep_ok hprep] at h
      have hsnd : (genTryBody loads s1 um resp save o).2 = s2 := by
        rw [← catchKeyError_snd resp (genTryBody loads s1 um resp save o), h]
      have hfst : (genTryBody loads s1 um resp save o).1 = .ok out :=
        catchKeyError_ok.mp (by rw [h])
      have hbody : genTryBody loads s1 um resp save o = (.ok out, s2) := by
        rw [← hsnd, ← hfst]
      obtain ⟨t1, t2, t3⟩ := genTryBody_ok_totals hbody
      obtain ⟨m1, p1, p2, p3, _, _, _⟩ := prepare_request_fields hprep
      exact ⟨by rw [t1, p1], by rw [t2, p2], by rw [t3, p3]⟩

theorem stream_of_prep_ok {s : SessionState} {loads : Loads} {prompt : PromptVal}
    {lines : List String} {system : Option String} {save : Option Bool}
    {params : Option (List (String × JsonVal))} {i o : Option SchemaType}
    {d : RequestData} {um : ChatMessage} {s1 : SessionState}
    (hprep : prepare_request s prompt system params true i o = .ok (d, um, s1)) :
    stream s loads prompt lines system save params i o
      = match stream_loop loads [] lines with
        | (_, evs, some e) => (evs, .error e, s1)
        | (contentF, evs, none) =>
            (evs, .ok (some { role := "assistant", content := String.join contentF }),
              add_messages s1 um
                { role := "assistant", content := String.join contentF } save) := by
  unfold stream; rw [hprep]

theorem stream_of_prep_err {s : SessionState} {loads : Loads} {prompt : PromptVal}
    {lines : List String} {system : Option String} {save : Option Bool}
    {params : Option (List (String × JsonVal))} {i o : Option SchemaType}
    {e : GenError}
    (hprep : prepare_request s prompt system params true i o = .error e) :
    stream s loads prompt lines system save params i o = ([], .error e, s) := by
  unfold stream; rw [hprep]

theorem stream_totals {s : SessionState} {loads : Loads} {prompt : PromptVal}
    {lines : List String} {system : Option String} {save : Option Bool}
    {params : Option (List (String × JsonVal))} {i o : Option SchemaType} :
    (stream s loads prompt lines system save params i o).2.2.total_prompt_length
        = s.total_prompt_length ∧
    (stream s loads prompt lines system save params i o).2.2.total_completion_length
        = s.total_completion_length ∧
    (stream s loads prompt lines system save params i o).2.2.total_length
        = s.total_length := by
  cases hprep : prepare_request s prompt system params true i o with
  | error e => rw [stream_of_prep_err hprep]; exact ⟨rfl, rfl, rfl⟩
  | ok trip =>
      obtain ⟨d, um, s1⟩ := trip
      obtain ⟨m1, p1, p2, p3, _, _, _⟩ := prepare_request_fields hprep
      rw [stream_of_prep_ok hprep]
      rcases hsl : stream_loop loads [] lines with ⟨contentF, evs, err⟩
      cases err with
      | none =>
          simp [add_messages_total_prompt, add_messages_total_completion,
            add_messages_total_length, p1, p2, p3]
      | some e => exact ⟨p1, p2, p3⟩

theorem runOp_totals {s : SessionState} {op : CallOp} (h : opSyncOk s op = true) :
    (runOp s op).total_prompt_length = s.total_prompt_length + (opUsage op).1 ∧
    (runOp s op).total_completion_length = s.total_completion_length + (opUsage op).2.1 ∧
    (runOp s op).total_length = s.total_length + (opUsage op).2.2 := by
  cases op with
  | sync loads prompt resp system save params i o =>
      rcases hg : gen s loads prompt resp system save params i o with ⟨r, s2⟩
      simp only [opSyncOk, hg] at h
      cases r with
      | error e => simp [Except.isOk, Except.toBool] at h
      | ok out =>
          obtain ⟨t1, t2, t3⟩ := gen_ok_totals hg
          simp only [runOp, opUsage, hg]
          exact ⟨t1, t2, t3⟩
  | streamed loads prompt lines system save params i o =>
      obtain ⟨t1, t2, t3⟩ :=
        @stream_totals s loads prompt lines system save params i o
      simp only [runOp, opUsage]
      simp [t1, t2, t3]

theorem sumUsage_cons (op : CallOp) (rest : List CallOp) :
    sumUsage (op :: rest)
      = ((opUsage op).1 + (sumUsage rest).1,
         (opUsage op).2.1 + (sumUsage rest).2.1,
         (opUsage op).2.2 + (sumUsage rest).2.2) := rfl

theorem runOps_totals {s : SessionState} {ops : List CallOp}
    (h : allSyncOk s ops = true) :
    (runOps s ops).total_prompt_length = s.total_prompt_length + (sumUsage ops).1 ∧
    (runOps s ops).total_completion_length
        = s.total_completion_length + (sumUsage ops).2.1 ∧
    (runOps s ops).total_length = s.total_length + (sumUsage ops).2.2 := by
  induction ops generalizing s with
  | nil => simp [runOps, sumUsage]
  | cons op rest ih =>
      simp only [allSyncOk, Bool.and_eq_true] at h
      obtain ⟨h1, h2⟩ := h
      obtain ⟨a1, a2, a3⟩ := runOp_totals h1
      obtain ⟨b1, b2, b3⟩ := ih h2
      simp only [runOps]
      rw [sumUsage_cons]
      refine ⟨?_, ?_, ?_⟩
      · rw [b1, a1]; ring
      · rw [b2, a2]; ring
      · rw [b3, a3]; ring

theorem runOps_append (s : SessionState) (l1 l2 : List CallOp) :
    runOps s (l1 ++ l2) = runOps (runOps s l1) l2 := by
  induction l1 generalizing s with
  | nil => rfl
  | cons op rest ih =>
      rw [List.cons_append]
      simp only [runOps]
      exact ih (runOp s op)

theorem allSyncOk_take {s : SessionState} {ops : List CallOp}
    (h : allSyncOk s ops = true) (n : ℕ) : allSyncOk s (ops.take n) = true := by
  induction ops generalizing s n with
  | nil => simp [List.take_nil, allSyncOk]
  | cons op rest ih =>
      cases n with
      | zero => rfl
      | succ m =>
          simp only [allSyncOk, Bool.and_eq_true] at h
          obtain ⟨h1, h2⟩ := h
          rw [List.take_succ_cons]
          simp only [allSyncOk, Bool.and_eq_true]
          exact ⟨h1, ih h2 m⟩

theorem sumUsage_append (l1 l2 : List CallOp) :
    (sumUsage (l1 ++ l2)).1 = (sumUsage l1).1 + (sumUsage l2).1 ∧
    (sumUsage (l1 ++ l2)).2.1 = (sumUsage l1).2.1 + (sumUsage l2).2.1 ∧
    (sumUsage (l1 ++ l2)).2.2 = (sumUsage l1).2.2 + (sumUsage l2).2.2 := by
  induction l1 with
  | nil => simp [sumUsage]
  | cons op rest ih =>
      obtain ⟨i1, i2, i3⟩ := ih
      rw [List.cons_append, sumUsage_cons, sumUsage_cons]
      refine ⟨?_, ?_, ?_⟩ <;> simp [i1, i2, i3] <;> ring

theorem sumUsage_nonneg {l : List CallOp}
    (h : ∀ op ∈ l, 0 ≤ (opUsage op).1 ∧ 0 ≤ (opUsage op).2.1 ∧ 0 ≤ (opUsage op).2.2) :
    0 ≤ (sumUsage l).1 ∧ 0 ≤ (sumUsage l).2.1 ∧ 0 ≤ (sumUsage l).2.2 := by
  induction l with
  | nil => simp [sumUsage]
  | cons op rest ih =>
      obtain ⟨h1, h2, h3⟩ := h op (List.mem_cons_self op rest)
      obtain ⟨i1, i2, i3⟩ := ih (fun x hx => h x (List.mem_cons_of_mem op hx))
      rw [sumUsage_cons]
      exact ⟨by positivity, by positivity, by positivity⟩

theorem join_snoc (xs : List String) (x : String) :
    String.join (xs ++ [x]) = String.join xs ++ x := by
  simp [String.join, List.foldl_append]

theorem stream_loop_decoded {loads : Loads} {lines : List String} {frames : List Frame}
    (h : List.Forall₂ (decodesTo loads) lines frames) (content : List String) :
    stream_loop loads content lines
      = (content ++ frames.filterMap frameDelta,
         buildEvents (String.join content) (frames.filterMap frameDelta),
         none) := by
  induction h generalizing content with
  | nil => simp [stream_loop, buildEvents]
  | @cons line f lines2 frames2 hlf hrest ih =>
      cases f with
      | blank =>
          simp only [decodesTo] at hlf
          simp [stream_loop, hlf, frameDelta, List.filterMap_cons, ih content]
      | done =>
          simp only [decodesTo] at hlf
          obtain ⟨hlen, hdrop⟩ := hlf
          simp [stream_loop, hlen, hdrop, frameDelta, List.filterMap_cons, ih content]
      | delta c =>
          simp only [decodesTo] at hlf
          obtain ⟨hlen, hne, hld⟩ := hlf
          cases c with
          | none =>
              simp [stream_loop, hlen, hne, hld, deltaJson, deltaObjOf, choice0,
                jGet, jIdx, dictGet, pyTruthy, frameDelta, List.filterMap_cons,
                ih content]
          | some t =>
              by_cases ht : t = ""
              · subst ht
                simp [stream_loop, hlen, hne, hld, deltaJson, deltaObjOf, choice0,
                  jGet, jIdx, dictGet, pyTruthy, frameDelta, List.filterMap_cons,
                  ih content]
              · simp [stream_loop, hlen, hne, hld, deltaJson, deltaObjOf, choice0,
                  jGet, jIdx, dictGet, pyTruthy, frameDelta, List.filterMap_cons,
                  ht, ih, join_snoc, buildEvents]

theorem prepare_request_text (s : SessionState) (p : String) (system : Option String)
    (params : Option (List (String × JsonVal))) (st : Bool) :
    prepare_request s (.text p) system params st none none =
      .ok ({ model := s.model
             messages := format_input_messages s
               { role := "system", content := pyOrStr system s.system }
               { role := "user", content := p }
             stream := st
             gen_params := (pyOrParams params s).1 },
           { role := "user", content := p }, s) := by
  cases params with
  | none => simp [prepare_request, mkUserMessage, pyOrParams]
  | some ps =>
      by_cases hps : ps.isEmpty
      · simp [prepare_request, mkUserMessage, pyOrParams, hps]
      · simp [prepare_request, mkUserMessage, pyOrParams, hps]

/-! ### Concrete streamed exchange used as the specification's example -/

/-- The JSON text of the first example frame (braces written as escapes). -/
def helChunk : String :=
  "\x7b\"choices\":[\x7b\"delta\":\x7b\"content\":\"Hel\"\x7d\x7d]\x7d"

/-- The JSON text of the second example frame. -/
def loChunk : String :=
  "\x7b\"choices\":[\x7b\"delta\":\x7b\"content\":\"lo\"\x7d\x7d]\x7d"

/-- The example wire lines: two delta frames then the sentinel, each with the
6-character SSE prefix. -/
def exLines : List String :=
  ["data: " ++ helChunk, "data: " ++ loChunk, "data: [DONE]"]

/-- The frames the example lines carry. -/
def exFrames : List Frame := [.delta (some "Hel"), .delta (some "lo"), .done]

/-- A parsing oracle agreeing with `orjson` on the two example chunks. -/
def exLoads : Loads := fun s =>
  if s = helChunk then .ok (deltaJson (some "Hel"))
  else if s = loChunk then .ok (deltaJson (some "lo"))
  else .error ()

/-- A small concrete session state. -/
def exSession : SessionState :=
  { messages := []
    total_prompt_length := 0
    total_completion_length := 0
    total_length := 0
    system := "You are a helpful assistant."
    params := [("temperature", .flt "0.3")]
    model := "m"
    save_messages := true }

/-! ### Claims -/

/-- C1: for every finite sequence of streamed SSE frames, the stream
operation yields one event per frame whose delta content is present and
non-empty; each event's `delta` is that frame's content and its `response` is
the concatenation of all deltas seen so far; after exhaustion the assistant
message is built from the full concatenation and the user/assistant pair is
recorded subject to the persistence flag.  Instantiated at the
Hel/lo/[DONE] example by the witness. -/
theorem claim_C1_stream_events {s : SessionState} {loads : Loads} {p : String}
    {lines : List String} {frames : List Frame} {system : Option String}
    {save : Option Bool} {params : Option (List (String × JsonVal))}
    (h : List.Forall₂ (decodesTo loads) lines frames) :
    stream s loads (.text p) lines system save params none none
      = (buildEvents "" (frames.filterMap frameDelta),
         .ok (some { role := "assistant",
                     content := String.join (frames.filterMap frameDelta) }),
         add_messages s { role := "user", content := p }
           { role := "assistant",
             content := String.join (frames.filterMap frameDelta) }
           save) := by
  rw [stream_of_prep_ok (prepare_request_text s p system params true)]
  rw [stream_loop_decoded h []]
  rfl

/-- Witness for C1: the Hel/lo/[DONE] exchange yields exactly the events
`(delta "Hel", response "Hel")`, `(delta "lo", response "Hello")` and the
finalized assistant message content is `"Hello"`. -/
theorem claim_C1_witness :
    stream exSession exLoads (.text "Hi") exLines none none none none none
      = ([⟨"Hel", "Hel"⟩, ⟨"lo", "Hello"⟩],
         .ok (some { role := "assistant", content := "Hello" }),
         { exSession with messages :=
             [{ role := "user", content := "Hi" },
              { role := "assistant", content := "Hello" }] }) := by
  have h : List.Forall₂ (decodesTo exLoads) exLines exFrames := by
    refine .cons ⟨by decide, by decide, rfl⟩
      (.cons ⟨by decide, by decide, rfl⟩ (.cons ⟨by decide, by decide⟩ .nil))
  exact (claim_C1_stream_events h).trans rfl

/-- The lines of the C5 scenario: the sentinel first, then a well-formed
delta frame. -/
def c5Lines : List String := ["data: [DONE]", "data: " ++ helChunk]

/-- C5 counterexample: the claim says no event is yielded for any line after
the `[DONE]` sentinel; but on a sentinel line followed by a well-formed delta
frame the stream yields an event for the later frame (the source skips the
sentinel line without breaking out of the loop). -/
theorem claim_C5_counterexample :
    (stream exSession exLoads (.text "Hi") c5Lines none none none none none).1
        = [⟨"Hel", "Hel"⟩] ∧
    (stream exSession exLoads (.text "Hi") c5Lines none none none none none).1
        ≠ ([] : List StreamEvent) :=
  ⟨rfl, by decide⟩

/-- C5 amended: a line carrying the `[DONE]` sentinel yields no event and its
payload is not parsed, but the loop does not terminate there: the remaining
lines are processed exactly as if the sentinel line were absent (the stream
ends only when the delivered lines are exhausted). -/
theorem claim_C5_done_skips {loads : Loads} {line : String}
    (content rest : List String) (h1 : 0 < line.length)
    (h2 : line.drop 6 = "[DONE]") :
    stream_loop loads content (line :: rest) = stream_loop loads content rest := by
  simp [stream_loop, h1, h2]

/-- Witness for C5 amended at the sentinel line. -/
theorem claim_C5_witness :
    stream_loop exLoads [] ["data: [DONE]", "data: " ++ helChunk]
      = stream_loop exLoads [] ["data: " ++ helChunk] :=
  claim_C5_done_skips [] ["data: " ++ helChunk] (by decide) (by decide)

/-- An example output-schema type. -/
def exSchema : SchemaType :=
  { name := "Answer", jsonSchema := .obj [("type", .str "object")] }

/-- The session state after the first C4 call: the shared default params dict
now carries the injected `guided_json` key. -/
def c4Mid : SessionState :=
  { exSession with
      params := [("temperature", .flt "0.3"), ("guided_json", exSchema.jsonSchema)] }

/-- C4: evaluation of the code at the failing input.  A first call supplying
an output schema and no params override writes `guided_json` into the
session's shared default params dict; a second call on the same session with
neither schema then produces a payload that still contains the `guided_json`
key, contradicting the claim. -/
theorem claim_C4_bug_eval :
    prepare_request exSession (.text "a") none none false none (some exSchema)
      = .ok ({ model := "m"
               messages := [{ role := "system", content := "You are a helpful assistant." },
                            { role := "user", content := "a" }]
               stream := false
               gen_params := c4Mid.params }, { role := "user", content := "a" }, c4Mid) ∧
    prepare_request c4Mid (.text "b") none none false none none
      = .ok ({ model := "m"
               messages := [{ role := "system", content := "You are a helpful assistant." },
                            { role := "user", content := "b" }]
               stream := false
               gen_params := c4Mid.params }, { role := "user", content := "b" }, c4Mid) ∧
    dictGet c4Mid.params "guided_json" = some exSchema.jsonSchema :=
  ⟨rfl, rfl, rfl⟩

/-- C9: when an input schema is supplied and the prompt is not an instance of
it, the generation fails with the type-mismatch error raised during request
preparation, with the same outcome for every transport response (so before
any network exchange) and with the session state returned unchanged. -/
theorem claim_C9_type_mismatch {s : SessionState} {loads : Loads}
    {prompt : PromptVal} {system : Option String} {save : Option Bool}
    {params : Option (List (String × JsonVal))} {sch : SchemaType}
    {osch : Option SchemaType}
    (h : promptIsInstance prompt sch = false) (resp : JsonVal) :
    gen s loads prompt resp system save params (some sch) osch
      = (.error (.typeMismatch sch.name), s) := by
  have hprep : prepare_request s prompt system params false (some sch) osch
      = .error (.typeMismatch sch.name) := by
    cases prompt with
    | text t => simp [prepare_request, mkUserMessage]
    | typed tn dump =>
        simp only [promptIsInstance, decide_eq_false_iff_not] at h
        simp [prepare_request, mkUserMessage, h]
  exact gen_of_prep_err hprep

/-- Witness for C9: a plain-text prompt against the `Answer` input schema
fails with the type-mismatch error and leaves the session untouched. -/
theorem claim_C9_witness :
    promptIsInstance (.text "x") exSchema = false ∧
    gen exSession exLoads (.text "x") .null none none none (some exSchema) none
      = (.error (.typeMismatch "Answer"), exSession) :=
  ⟨rfl,
   @claim_C9_type_mismatch exSession exLoads (.text "x") none none none exSchema
     none rfl .null⟩

theorem catchKeyError_error_of {resp : JsonVal}
    {r : (Except GenError GenOutput) × SessionState} {e : GenError}
    (h : (catchKeyError resp r).1 = .error e) :
    ∃ e2 : GenError, r.1 = .error e2 := by
  rcases r with ⟨re | v, s2⟩
  · exact ⟨re, rfl⟩
  · simp [catchKeyError] at h

theorem gen_async_eq_gen : gen_async = gen := by
  funext s loads prompt resp system save params i o
  unfold gen gen_async
  simp only [genTryBodyAsync_eq_sync]

/-- C6: whenever request preparation succeeds but an expected key is missing
from the decoded response body (the try block raises a KeyError), the
synchronous executor surfaces the generation-failure error carrying the raw
response body, immediately and unretried; and the asynchronous executor
behaves identically on the same input. -/
theorem claim_C6_missing_key {s : SessionState} {loads : Loads}
    {prompt : PromptVal} {resp : JsonVal} {system : Option String}
    {save : Option Bool} {params : Option (List (String × JsonVal))}
    {i o : Option SchemaType} {d : RequestData} {um : ChatMessage}
    {s1 : SessionState}
    (hprep : prepare_request s prompt system params false i o = .ok (d, um, s1))
    (hkey : (genTryBody loads s1 um resp save o).1 = .error .keyErr) :
    (gen s loads prompt resp system save params i o).1
        = .error (.noAiGeneration resp) ∧
    gen_async s loads prompt resp system save params i o
      = gen s loads prompt resp system save params i o := by
  constructor
  · rw [gen_of_prep_ok hprep]
    rcases hb : genTryBody loads s1 um resp save o with ⟨r, s2⟩
    rw [hb] at hkey
    simp only at hkey
    subst hkey
    rfl
  · rw [gen_async_eq_gen]

/-- A response body of the expected non-streamed shape whose message content
is missing the `usage` block. -/
def c6Resp : JsonVal :=
  .obj [("choices", .arr [.obj
    [("message", .obj [("content", .str "hi"), ("role", .str "assistant")]),
     ("finish_reason", .str "stop")]])]

/-- Witness for C6: a body missing `usage` makes both executors fail with the
wrapped error carrying that body. -/
theorem claim_C6_witness :
    (gen exSession exLoads (.text "q") c6Resp none none none none none).1
        = .error (.noAiGeneration c6Resp) ∧
    gen_async exSession exLoads (.text "q") c6Resp none none none none none
      = gen exSession exLoads (.text "q") c6Resp none none none none none :=
  claim_C6_missing_key (prepare_request_text exSession "q" none none false) rfl

/-- The C10 response: output-schema path, `usage` present but carrying only
`prompt_tokens`. -/
def c10Resp : JsonVal :=
  .obj [("choices", .arr [.obj
          [("message", .obj [("content", .str "\x7b\x7d")])]]),
        ("usage", .obj [("prompt_tokens", .num 5)])]

/-- A parsing oracle agreeing with `orjson` on the empty JSON object. -/
def c10Loads : Loads := fun s =>
  if s = "\x7b\x7d" then .ok (.obj []) else .error ()

/-- C10 counterexample: in the output-schema path with a partially-present
usage block, `gen` raises for the missing `completion_tokens` key yet leaves
the prompt total already incremented (5 against the prior 0), so the session
state is not restored on error. -/
theorem claim_C10_counterexample :
    (gen exSession c10Loads (.text "q") c10Resp none none none none
        (some exSchema)).1 = .error (.noAiGeneration c10Resp) ∧
    (gen exSession c10Loads (.text "q") c10Resp none none none none
        (some exSchema)).2.total_prompt_length = 5 ∧
    exSession.total_prompt_length = 0 ∧ (5 : ℤ) ≠ 0 :=
  ⟨rfl, rfl, rfl, by decide⟩

/-- C10 amended: when `gen` raises, the message history is never touched (for
any output-schema argument); when additionally no output schema was supplied,
all three running totals also retain their prior values; and the asynchronous
executor behaves identically.  (With an output schema, usage additions
performed before the missing-key access persist, as the counterexample
shows.) -/
theorem claim_C10_amended {s : SessionState} {loads : Loads} {prompt : PromptVal}
    {resp : JsonVal} {system : Option String} {save : Option Bool}
    {params : Option (List (String × JsonVal))} {i : Option SchemaType}
    {e : GenError} :
    (∀ osch, (gen s loads prompt resp system save params i osch).1 = .error e →
        (gen s loads prompt resp system save params i osch).2.messages
          = s.messages) ∧
    ((gen s loads prompt resp system save params i none).1 = .error e →
        (gen s loads prompt resp system save params i none).2.total_prompt_length
            = s.total_prompt_length ∧
        (gen s loads prompt resp system save params i none).2.total_completion_length
            = s.total_completion_length ∧
        (gen s loads prompt resp system save params i none).2.total_length
            = s.total_length) ∧
    (∀ osch, gen_async s loads prompt resp system save params i osch
        = gen s loads prompt resp system save params i osch) := by
  refine ⟨?_, ?_, fun osch => by rw [gen_async_eq_gen]⟩
  · intro osch herr
    cases hprep : prepare_request s prompt system params false i osch with
    | error e2 => rw [gen_of_prep_err hprep]
    | ok trip =>
        obtain ⟨d, um, s1⟩ := trip
        rw [gen_of_prep_ok hprep] at herr ⊢
        rw [catchKeyError_snd]
        obtain ⟨e2, he2⟩ := catchKeyError_error_of herr
        have hpair : genTryBody loads s1 um resp save osch
            = (.error e2, (genTryBody loads s1 um resp save osch).2) := by
          rw [← he2]
        rw [genTryBody_error_messages hpair]
        exact (prepare_request_fields hprep).1
  · intro herr
    cases hprep : prepare_request s prompt system params false i none with
    | error e2 =>
        rw [gen_of_prep_err hprep]
        exact ⟨rfl, rfl, rfl⟩
    | ok trip =>
        obtain ⟨d, um, s1⟩ := trip
        rw [gen_of_prep_ok hprep] at herr ⊢
        rw [catchKeyError_snd]
        obtain ⟨e2, he2⟩ := catchKeyError_error_of herr
        have hpair : genTryBody loads s1 um resp save none
            = (.error e2, (genTryBody loads s1 um resp save none).2) := by
          rw [← he2]
        rw [genTryBody_none_error_state hpair]
        obtain ⟨m1, p1, p2, p3, _, _, _⟩ := prepare_request_fields hprep
        exact ⟨p1, p2, p3⟩

/-- Witness for C10 amended: at the missing-`usage` body with no output
schema, the failed call leaves history and all three totals unchanged, and
the async variant agrees. -/
theorem claim_C10_witness :
    (gen exSession exLoads (.text "q") c6Resp none none none none none).2.messages
        = exSession.messages ∧
    (gen exSession exLoads (.text "q") c6Resp none none none none
        none).2.total_prompt_length = exSession.total_prompt_length ∧
    gen_async exSession exLoads (.text "q") c6Resp none none none none none
      = gen exSession exLoads (.text "q") c6Resp none none none none none :=
  ⟨(@claim_C10_amended exSession exLoads (.text "q") c6Resp none none none none
      (.noAiGeneration c6Resp)).1 none rfl,
   ((@claim_C10_amended exSession exLoads (.text "q") c6Resp none none none none
      (.noAiGeneration c6Resp)).2.1 rfl).1,
   (@claim_C10_amended exSession exLoads (.text "q") c6Resp none none none none
      (.noAiGeneration c6Resp)).2.2 none⟩

/-- C8: when the selection call returns the `"no-function"` sentinel, the
orchestrator performs one normal generation with the original prompt, system
and params (persisted per the caller's flag, reflected in its resulting state
`s2`), and returns the object mapping `response` to that generation's text
and `tool` to null. -/
theorem claim_C8_no_tool {s : SessionState} {loads : Loads} {prompt : String}
    {tools : List Tool} {resp1 resp2 : JsonVal} {system : Option String}
    {save : Option Bool} {params : Option (List (String × JsonVal))}
    {s1 s2 : SessionState} {r2 : String}
    (h1 : gen s loads (.text prompt) resp1
        (some (tool_prompt_format (String.intercalate "\n" (toolNames tools))))
        (some false) (some (selectionParams tools)) none none
        = (.ok (.text "no-function"), s1))
    (h2 : gen s1 loads (.text prompt) resp2 system save params none none
        = (.ok (.text r2), s2)) :
    gen_with_tools s loads prompt tools resp1 resp2 system save params
      = (.ok [("response", .str r2), ("tool", .null)], s2) := by
  simp [gen_with_tools, h1, h2]

/-- C2: when the selection call names a tool of the list (other than the
sentinel) and that tool applied to the prompt returns a string, the
orchestrator returns the mapping with that string under `context`, the tool's
name under `tool` and the second generation's text under `response`; and the
pair recorded into history (subject to the caller's flag) is the original
unmodified user prompt together with the final response text, not the
context-wrapped follow-up prompt. -/
theorem claim_C2_tool_branch {s : SessionState} {loads : Loads} {prompt : String}
    {tools : List Tool} {resp1 resp2 : JsonVal} {system : Option String}
    {save : Option Bool} {params : Option (List (String × JsonVal))}
    {s1 s2 : SessionState} {nm ctx r2 : String} {T : Tool}
    (h1 : gen s loads (.text prompt) resp1
        (some (tool_prompt_format (String.intercalate "\n" (toolNames tools))))
        (some false) (some (selectionParams tools)) none none
        = (.ok (.text nm), s1))
    (hnm : nm ≠ "no-function")
    (hfind : tools.find? (fun t => t.name = nm) = some T)
    (hrun : T.run prompt = .str ctx)
    (h2 : gen s1 loads (.text (toolNewPrompt ctx prompt)) resp2
        (some (toolNewSystem system s1)) (some false) params none none
        = (.ok (.text r2), s2)) :
    gen_with_tools s loads prompt tools resp1 resp2 system save params
      = (.ok [("context", .str ctx), ("tool", .str T.name), ("response", .str r2)],
         add_messages s2 { role := "user", content := prompt }
           { role := "assistant", content := r2 } save) := by
  simp [gen_with_tools, h1, hnm, hfind, hrun, h2, dictSet, dictGet]

/-- A well-formed non-streamed response body with the given message content
and the usage triple (1, 2, 3). -/
def mkResp (content : String) : JsonVal :=
  .obj [("choices", .arr [.obj
          [("message", .obj [("content", .str content), ("role", .str "assistant")]),
           ("finish_reason", .str "stop")]]),
        ("usage", .obj [("prompt_tokens", .num 1), ("completion_tokens", .num 2),
                        ("total_tokens", .num 3)])]

/-- An example tool returning a fixed context string. -/
def toolA : Tool := { name := "A", run := fun _ => .str "ctx" }

/-- Witness for C8: a selection of the sentinel leads to one plain generation
whose text is returned under `response` with `tool` null; the exchange is
persisted per the session policy. -/
theorem claim_C8_witness :
    gen_with_tools exSession exLoads "x" [toolA] (mkResp "no-function")
        (mkResp "ok") none none none
      = (.ok [("response", .str "ok"), ("tool", .null)],
         { exSession with
             messages := [{ role := "user", content := "x" },
                          { role := "assistant", content := "ok",
                            finish_reason := some (.str "stop"),
                            prompt_length := some 1, completion_length := some 2,
                            total_length := some 3 }]
             total_prompt_length := 2
             total_completion_length := 4
             total_length := 6 }) :=
  claim_C8_no_tool rfl rfl

/-- Witness for C2: with selection response `"A"` and `A "x" = "ctx"`, the
returned object is exactly (context "ctx", tool "A", response "ok"), and the
history records the original prompt `"x"` with the final response. -/
theorem claim_C2_witness :
    gen_with_tools exSession exLoads "x" [toolA] (mkResp "A") (mkResp "ok")
        none none none
      = (.ok [("context", .str "ctx"), ("tool", .str "A"), ("response", .str "ok")],
         { exSession with
             messages := [{ role := "user", content := "x" },
                          { role := "assistant", content := "ok" }]
             total_prompt_length := 2
             total_completion_length := 4
             total_length := 6 }) :=
  @claim_C2_tool_branch exSession exLoads "x" [toolA] (mkResp "A") (mkResp "ok")
    none none none
    { exSession with
        total_prompt_length := 1
        total_completion_length := 2
        total_length := 3 }
    { exSession with
        total_prompt_length := 2
        total_completion_length := 4
        total_length := 6 }
    "A" "ctx" "ok" toolA rfl (by decide) rfl rfl rfl

/-- C3: over any interleaved sequence of calls whose synchronous generations
all succeed and whose reported usage figures are nonnegative, each running
total ends at its initial value plus the sum of the corresponding usage
figures of the synchronous calls; a streaming call never changes any total
from any state; and along the run the totals never decrease. -/
theorem claim_C3_usage_totals {s : SessionState} {ops : List CallOp}
    (hok : allSyncOk s ops = true)
    (hnn : ∀ op ∈ ops,
      0 ≤ (opUsage op).1 ∧ 0 ≤ (opUsage op).2.1 ∧ 0 ≤ (opUsage op).2.2) :
    ((runOps s ops).total_prompt_length
        = s.total_prompt_length + (sumUsage ops).1 ∧
     (runOps s ops).total_completion_length
        = s.total_completion_length + (sumUsage ops).2.1 ∧
     (runOps s ops).total_length = s.total_length + (sumUsage ops).2.2) ∧
    (∀ s2 loads prompt lines system save params i o,
      (runOp s2 (.streamed loads prompt lines system save params i o)).total_prompt_length
          = s2.total_prompt_length ∧
      (runOp s2 (.streamed loads prompt lines system save params i o)).total_completion_length
          = s2.total_completion_length ∧
      (runOp s2 (.streamed loads prompt lines system save params i o)).total_length
          = s2.total_length) ∧
    (∀ m n, m ≤ n →
      (runOps s (ops.take m)).total_prompt_length
          ≤ (runOps s (ops.take n)).total_prompt_length ∧
      (runOps s (ops.take m)).total_completion_length
          ≤ (runOps s (ops.take n)).total_completion_length ∧
      (runOps s (ops.take m)).total_length
          ≤ (runOps s (ops.take n)).total_length) := by
  refine ⟨runOps_totals hok, ?_, ?_⟩
  · intro s2 loads prompt lines system save params i o
    exact stream_totals
  · intro m n hmn
    obtain ⟨e1, e2, e3⟩ := runOps_totals (allSyncOk_take hok m)
    obtain ⟨f1, f2, f3⟩ := runOps_totals (allSyncOk_take hok n)
    have hdecomp : ops.take n = ops.take m ++ (ops.drop m).take (n - m) := by
      rw [← List.take_add]
      congr 1
      omega
    have hmem : ∀ op ∈ (ops.drop m).take (n - m),
        0 ≤ (opUsage op).1 ∧ 0 ≤ (opUsage op).2.1 ∧ 0 ≤ (opUsage op).2.2 := by
      intro op hop
      exact hnn op (List.drop_subset m ops (List.take_subset _ _ hop))
    obtain ⟨g1, g2, g3⟩ := sumUsage_nonneg hmem
    obtain ⟨a1, a2, a3⟩ := sumUsage_append (ops.take m) ((ops.drop m).take (n - m))
    rw [← hdecomp] at a1 a2 a3
    refine ⟨?_, ?_, ?_⟩
    · rw [e1, f1, a1]; linarith
    · rw [e2, f2, a2]; linarith
    · rw [e3, f3, a3]; linarith

/-- An interleaved call sequence: a successful synchronous call, a streaming
call, another successful synchronous call. -/
def c3Ops : List CallOp :=
  [.sync exLoads (.text "a") (mkResp "r1") none none none none none,
   .streamed exLoads (.text "b") exLines none none none none none,
   .sync exLoads (.text "c") (mkResp "r2") none none none none none]

/-- Witness for C3: over the concrete interleaved sequence, the totals end at
initial-plus-sum (here (2, 4, 6), the streaming call contributing zero). -/
theorem claim_C3_witness :
    ((runOps exSession c3Ops).total_prompt_length
        = exSession.total_prompt_length + (sumUsage c3Ops).1 ∧
     (runOps exSession c3Ops).total_completion_length
        = exSession.total_completion_length + (sumUsage c3Ops).2.1 ∧
     (runOps exSession c3Ops).total_length
        = exSession.total_length + (sumUsage c3Ops).2.2) ∧
    sumUsage c3Ops = (2, 4, 6) ∧
    (runOps exSession c3Ops).total_prompt_length = 2 :=
  ⟨(claim_C3_usage_totals (by rfl)
      (by
        intro op hop
        simp only [c3Ops, List.mem_cons, List.not_mem_nil, or_false] at hop
        rcases hop with h | h | h <;> subst h <;>
          exact ⟨by decide, by decide, by decide⟩)).1,
   rfl, rfl⟩

theorem stream_async_of_prep_ok {s : SessionState} {loads : Loads}
    {prompt : PromptVal} {lines : List String} {system : Option String}
    {save : Option Bool} {params : Option (List (String × JsonVal))}
    {i o : Option SchemaType} {d : RequestData} {um : ChatMessage}
    {s1 : SessionState}
    (hprep : prepare_request s prompt system params true i o = .ok (d, um, s1)) :
    stream_async s loads prompt lines system save params i o
      = match stream_loop_async loads [] lines with
        | (_, evs, some e) => (evs, .error e, s1)
        | (contentF, evs, none) =>
            (evs, .ok none,
              add_messages s1 um
                { role := "assistant", content := String.join contentF } save) := by
  unfold stream_async; rw [hprep]

theorem stream_async_of_prep_err {s : SessionState} {loads : Loads}
    {prompt : PromptVal} {lines : List String} {system : Option String}
    {save : Option Bool} {params : Option (List (String × JsonVal))}
    {i o : Option SchemaType} {e : GenError}
    (hprep : prepare_request s prompt system params true i o = .error e) :
    stream_async s loads prompt lines system save params i o
      = ([], .error e, s) := by
  unfold stream_async; rw [hprep]

/-- Forgetting a generator's terminal value (what an async generator cannot
expose). -/
def dropTerminal (r : Except GenError (Option ChatMessage)) :
    Except GenError (Option ChatMessage) :=
  match r with
  | .ok _ => .ok none
  | .error e => .error e

theorem stream_async_characterization (s : SessionState) (loads : Loads)
    (prompt : PromptVal) (lines : List String) (system : Option String)
    (save : Option Bool) (params : Option (List (String × JsonVal)))
    (i o : Option SchemaType) :
    stream_async s loads prompt lines system save params i o
      = ((stream s loads prompt lines system save params i o).1,
         dropTerminal (stream s loads prompt lines system save params i o).2.1,
         (stream s loads prompt lines system save params i o).2.2) := by
  cases hprep : prepare_request s prompt system params true i o with
  | error e => rw [stream_async_of_prep_err hprep, stream_of_prep_err hprep]; rfl
  | ok trip =>
      obtain ⟨d, um, s1⟩ := trip
      rw [stream_async_of_prep_ok hprep, stream_of_prep_ok hprep,
        stream_loop_async_eq_sync]
      rcases hsl : stream_loop loads [] lines with ⟨cf, evs, err⟩
      cases err <;> rfl

theorem gen_with_tools_async_eq_sync : gen_with_tools_async = gen_with_tools := by
  funext s loads prompt tools resp1 resp2 system save params
  unfold gen_with_tools gen_with_tools_async
  simp only [gen_async_eq_gen]

/-- The terminal value a driven-to-exhaustion stream generator exposes. -/
def streamTerminal
    (r : List StreamEvent × (Except GenError (Option ChatMessage)) × SessionState) :
    Option ChatMessage :=
  match r.2.1 with
  | .ok m => m
  | .error _ => none

/-- C7 counterexample: on the example streamed exchange the synchronous and
asynchronous streaming operations do not produce identical results — the
synchronous generator returns the finalized assistant message as its terminal
value, the asynchronous generator returns none. -/
theorem claim_C7_counterexample :
    stream exSession exLoads (.text "Hi") exLines none none none none none
      ≠ stream_async exSession exLoads (.text "Hi") exLines none none none none none :=
  fun h => Option.noConfusion (congrArg streamTerminal h)

/-- C7 amended: `gen`/`gen_async` and `gen_with_tools`/`gen_with_tools_async`
produce identical results on every input; `stream` and `stream_async` yield
identical event sequences and identical session-state mutations, but the
synchronous stream additionally exposes the finalized assistant message as
its terminal value, which the asynchronous variant drops. -/
theorem claim_C7_amended :
    gen_async = gen ∧
    gen_with_tools_async = gen_with_tools ∧
    ∀ s loads prompt lines system save params i o,
      stream_async s loads prompt lines system save params i o
        = ((stream s loads prompt lines system save params i o).1,
           dropTerminal (stream s loads prompt lines system save params i o).2.1,
           (stream s loads prompt lines system save params i o).2.2) :=
  ⟨gen_async_eq_gen, gen_with_tools_async_eq_sync, stream_async_characterization⟩
